import Mathlib

/-!
Verification of the emotion/sentiment feedback analyzer.

The development shallowly embeds the core components of the system:
the rule-based sarcasm detector (src/sarcasm_detector.py), the
prediction enrichment pipeline (src/model.py, predict_with_details),
the configuration lookups (src/config.py) and the batch trend
aggregator (src/batch_analysis.py).  Machine floats are modelled by
exact rationals; texts are modelled as lists of characters; Python
regular-expression searches over the fixed literal patterns of the
detector are modelled by direct word-boundary scans.  Fallible Python
code (KeyError, ValueError, IndexError) is modelled with Except.
-/

namespace EmotionAnalyzer

/-! ### Character and text utilities -/

/-- The ASCII apostrophe character (code point 39). -/
def apos : Char := Char.ofNat 39

/-- ASCII lower-casing of one character, the effect of Python
str.lower and re.IGNORECASE on the ASCII texts and patterns used by
the detector. -/
def lowerChar (c : Char) : Char :=
  if 65 ≤ c.toNat ∧ c.toNat ≤ 90 then Char.ofNat (c.toNat + 32) else c

/-- Lower-case a whole text (Python text.lower()). -/
def lowerList (t : List Char) : List Char := t.map lowerChar

/-- A word character in the sense of the regex class backslash-w over
ASCII: letters, digits and the underscore. -/
def isWordChar (c : Char) : Bool := c.isAlphanum || c == '_'

/-- A whitespace character in the sense of the regex class
backslash-s: space, tab, newline, vertical tab, form feed, carriage
return. -/
def isSpaceChar (c : Char) : Bool :=
  c == ' ' || c.toNat == 9 || c.toNat == 10 || c.toNat == 11 ||
    c.toNat == 12 || c.toNat == 13

/-- Does the pattern occur literally at the head of the text?  When it
does, return the remaining text after it. -/
def dropPat : List Char → List Char → Option (List Char)
  | [], rest => some rest
  | _ :: _, [] => none
  | a :: as, b :: bs => if a == b then dropPat as bs else none

/-- Word boundary on the left of a match position: there is no
preceding character, or the preceding character is not a word
character.  (Every lexicon pattern begins with a word character.) -/
def boundaryBefore : Option Char → Bool
  | none => true
  | some p => !isWordChar p

/-- Word boundary on the right of a match: the text ends, or the next
character is not a word character.  (Every lexicon pattern ends with a
word character.) -/
def boundaryAfter : List Char → Bool
  | [] => true
  | c :: _ => !isWordChar c

/-- One candidate position for the whole-word pattern match used by
re.search of a literal pattern wrapped in word boundaries. -/
def wordMatchAt (pat text : List Char) (prev : Option Char) : Bool :=
  boundaryBefore prev &&
    match dropPat pat text with
    | none => false
    | some rest => boundaryAfter rest

/-- Scan every position of the text, carrying the previous character
for the word-boundary test. -/
def scanFrom (test : Option Char → List Char → Bool) :
    Option Char → List Char → Bool
  | _, [] => false
  | prev, c :: cs => test prev (c :: cs) || scanFrom test (some c) cs

/-- re.search of a literal word-bounded pattern in a text. -/
def wordOccurs (pat text : List Char) : Bool :=
  scanFrom (fun prev t => wordMatchAt pat t prev) none text

/-- Drop a maximal run of whitespace. -/
def dropSpaces : List Char → List Char
  | [] => []
  | c :: cs => if isSpaceChar c then dropSpaces cs else c :: cs

/-- One candidate position for the intensifier pattern: word boundary,
the intensifier, at least one whitespace character, the positive word,
word boundary. -/
def intensMatchAt (intens pos text : List Char) (prev : Option Char) : Bool :=
  boundaryBefore prev &&
    match dropPat intens text with
    | none => false
    | some r1 =>
      match r1 with
      | [] => false
      | c :: cs =>
        isSpaceChar c &&
          match dropPat pos (dropSpaces cs) with
          | none => false
          | some r3 => boundaryAfter r3

/-- re.search of the pattern intensifier, one-or-more whitespace,
positive word, all wrapped in word boundaries. -/
def intensOccurs (intens pos text : List Char) : Bool :=
  scanFrom (fun prev t => intensMatchAt intens pos t prev) none text

/-! ### Sarcasm detector lexicons (src/sarcasm_detector.py) -/

/-- SARCASTIC_PHRASES: the fixed lexicon of known sarcastic phrases,
each matched as a word-bounded case-insensitive literal. -/
def SARCASTIC_PHRASES : List (List Char) :=
  [ "great job".toList, "well done".toList, "thanks a lot".toList,
    "oh wonderful".toList, "oh great".toList, "just wonderful".toList,
    "just perfect".toList, "brilliant idea".toList, "genius".toList,
    "fantastic".toList, "amazing work".toList, "real smart".toList,
    "very helpful".toList, "so helpful".toList, "love it when".toList,
    "really appreciate".toList,
    "couldn".toList ++ [apos] ++ "t be better".toList ]

/-- NEGATIVE_CONTEXT: words that suggest complaint or problem. -/
def NEGATIVE_CONTEXT : List (List Char) :=
  [ "terrible".toList, "awful".toList, "horrible".toList, "worst".toList,
    "useless".toList, "broken".toList, "failed".toList, "disaster".toList,
    "nightmare".toList, "unacceptable".toList, "ridiculous".toList,
    "pathetic".toList, "waste".toList, "never".toList,
    "disappointed".toList, "frustrated".toList, "angry".toList,
    "furious".toList, "can".toList ++ [apos] ++ "t believe".toList,
    "seriously".toList, "joke".toList, "kidding".toList ]

/-- POSITIVE_SURFACE: positive surface words that might be used
sarcastically. -/
def POSITIVE_SURFACE : List (List Char) :=
  [ "great".toList, "wonderful".toList, "excellent".toList,
    "perfect".toList, "amazing".toList, "fantastic".toList,
    "brilliant".toList, "awesome".toList, "outstanding".toList,
    "superb".toList, "lovely".toList, "nice".toList, "thanks".toList,
    "thank".toList, "appreciate".toList, "love".toList, "enjoy".toList ]

/-- SARCASTIC_INTENSIFIERS: intensifiers that may indicate sarcasm
when combined with a positive word. -/
def SARCASTIC_INTENSIFIERS : List (List Char) :=
  [ "really".toList, "so".toList, "very".toList, "such".toList,
    "totally".toList, "absolutely".toList, "definitely".toList,
    "surely".toList, "clearly".toList, "obviously".toList,
    "just".toList ]

/-! ### The five signal detectors -/

/-- Detector 1, _detect_sarcastic_phrases: score 0.75 when any of the
known sarcastic phrases occurs in the lower-cased text. -/
def phraseScore (textLower : List Char) : ℚ :=
  if SARCASTIC_PHRASES.any (fun p => wordOccurs p textLower) then 0.75 else 0

/-- Detector 2, _detect_contrast: 0.7 when a positive surface word and
a negative context word both occur; independently, an intensifier
immediately followed by a positive word raises the score to at least
0.65. -/
def contrastScore (textLower : List Char) : ℚ :=
  let positiveFound := POSITIVE_SURFACE.any (fun w => wordOccurs w textLower)
  let negativeFound := NEGATIVE_CONTEXT.any (fun w => wordOccurs w textLower)
  let intensified := SARCASTIC_INTENSIFIERS.any (fun i =>
    POSITIVE_SURFACE.any (fun p => intensOccurs i p textLower))
  let score : ℚ := if positiveFound && negativeFound then 0.7 else 0
  if intensified then max score 0.65 else score

/-- Two consecutive occurrences of the given character. -/
def hasRun2 (ch : Char) : List Char → Bool
  | a :: b :: rest => (a == ch && b == ch) || hasRun2 ch (b :: rest)
  | _ => false

/-- An exclamation or question mark. -/
def isBangQ (c : Char) : Bool := c == '!' || c == '?'

/-- Three consecutive characters that are each an exclamation or a
question mark. -/
def hasMixedRun3 : List Char → Bool
  | a :: b :: c :: rest =>
      (isBangQ a && isBangQ b && isBangQ c) || hasMixedRun3 (b :: c :: rest)
  | _ => false

/-- Detector 3, _detect_excessive_punctuation over the raw text: score
0.55 when any of the three punctuation patterns matches. -/
def punctScore (text : List Char) : ℚ :=
  if hasRun2 '!' text || hasRun2 '?' text || hasMixedRun3 text then 0.55 else 0

/-- A single or double quotation mark, the character class of the
quoted-word pattern. -/
def isQuote (c : Char) : Bool := c == '"' || c == apos

/-- Split a maximal run of word characters off the front of the
text. -/
def spanWord : List Char → List Char × List Char
  | [] => ([], [])
  | c :: cs =>
    if isWordChar c then
      let r := spanWord cs
      (c :: r.1, r.2)
    else ([], c :: cs)

/-- Left-to-right non-overlapping scan for quoted single words, the
behaviour of re.finditer with the quoted-word pattern: a quote, one or
more word characters, a quote.  The fuel argument bounds the recursion
by the length of the text. -/
def quotedWordsAux : Nat → List Char → List (List Char)
  | 0, _ => []
  | _, [] => []
  | fuel + 1, c :: cs =>
    if isQuote c then
      match spanWord cs with
      | (w, r :: rs) =>
        if decide (w ≠ []) && isQuote r then w :: quotedWordsAux fuel rs
        else quotedWordsAux fuel cs
      | (_, []) => quotedWordsAux fuel cs
    else quotedWordsAux fuel cs

/-- All quoted single words of the text, leftmost first,
non-overlapping. -/
def quotedWords (text : List Char) : List (List Char) :=
  quotedWordsAux text.length text

/-- Detector 4, _detect_quoted_positives over the lower-cased text:
score 0.7 when some quoted word belongs to the positive-surface
lexicon. -/
def quotedScore (textLower : List Char) : ℚ :=
  if (quotedWords textLower).any (fun w => POSITIVE_SURFACE.contains w)
  then 0.7 else 0

/-- The negative emotion group used by _detect_polarity_mismatch. -/
def mismatchNegativeEmotions : List String :=
  ["anger", "frustration", "disappointment", "sadness",
   "fear", "anxiety", "annoyance", "regret"]

/-- Detector 5, _detect_polarity_mismatch: score 0.6 for a positive
sentiment paired with a negative emotion. -/
def polarityMismatchScore (sentiment emotion : String) : ℚ :=
  if sentiment == "positive" && mismatchNegativeEmotions.contains emotion
  then 0.6 else 0

/-- Python truthiness of an optional string: present and non-empty. -/
def truthy : Option String → Bool
  | none => false
  | some s => s ≠ ""

/-- The polarity-mismatch contribution inside detect: the detector
only runs when both the sentiment and the emotion arguments are truthy
strings. -/
def mismatchScore (sentiment emotion : Option String) : ℚ :=
  match sentiment, emotion with
  | some s, some e => if s ≠ "" ∧ e ≠ "" then polarityMismatchScore s e else 0
  | _, _ => 0

/-! ### Score fusion (SarcasmDetector.detect) -/

/-- The result of sarcasm detection; the indicator strings and the
explanation of the Python SarcasmResult are omitted as no claim
concerns them. -/
structure SarcasmResult where
  is_sarcastic : Bool
  confidence : ℚ
  deriving DecidableEq

/-- The list of non-zero detector scores, in the fixed detector order
phrase, contrast, punctuation, quoted, mismatch; this is the
confidence_scores list built by detect. -/
def confidenceScores (text : List Char) (sentiment emotion : Option String) :
    List ℚ :=
  let tl := lowerList text
  (if phraseScore tl > 0 then [phraseScore tl] else []) ++
  (if contrastScore tl > 0 then [contrastScore tl] else []) ++
  (if punctScore text > 0 then [punctScore text] else []) ++
  (if quotedScore tl > 0 then [quotedScore tl] else []) ++
  (if mismatchScore sentiment emotion > 0 then [mismatchScore sentiment emotion]
   else [])

/-- SarcasmDetector.detect: run the five detectors, then fuse the
non-zero scores: mean plus a multi-signal bonus, capped at 0.95; the
verdict is confidence strictly above 0.5. -/
def detect (text : List Char) (sentiment emotion : Option String) :
    SarcasmResult :=
  let scores := confidenceScores text sentiment emotion
  if scores.isEmpty then ⟨false, 0⟩
  else
    let base := scores.sum / (scores.length : ℚ)
    let bonus := min (0.15 * ((scores.length : ℚ) - 1)) 0.3
    let conf := min (base + bonus) 0.95
    ⟨decide (conf > 0.5), conf⟩

/-! ### Domain configuration (src/config.py) -/

/-- get_intensity: iterate the INTENSITY_THRESHOLDS table in its fixed
order low, medium, high, returning the first band whose half-open
interval contains the confidence; fall back to high. -/
def get_intensity (c : ℚ) : String :=
  if 0 ≤ c ∧ c < 0.55 then "low"
  else if 0.55 ≤ c ∧ c < 0.75 then "medium"
  else if 0.75 ≤ c ∧ c < 1 then "high"
  else "high"

/-- SARCASM_PRIORITY_EMOTIONS: emotions for which high-confidence
sarcasm overrides a positive sentiment. -/
def SARCASM_PRIORITY_EMOTIONS : List String :=
  ["anger", "frustration", "annoyance", "disappointment"]

/-- EMOTION_GROUPS: the taxonomy of the eighteen emotions, in the
fixed dictionary order. -/
def EMOTION_GROUPS : List (String × List String) :=
  [ ("positive",
      ["joy", "satisfaction", "trust", "excitement", "gratitude", "relief"]),
    ("negative",
      ["anger", "frustration", "disappointment", "sadness", "fear",
       "anxiety", "confusion", "annoyance", "regret"]),
    ("neutral_cognitive", ["neutral", "curiosity", "surprise"]) ]

/-- Lower-case a string (Python str.lower on ASCII data). -/
def lowerStr (s : String) : String := String.mk (s.data.map lowerChar)

/-- get_emotion_group: first group whose member list contains the
lower-cased emotion; otherwise the fallback value. -/
def get_emotion_group (emotion : String) : String :=
  match EMOTION_GROUPS.find? (fun g => g.2.contains (lowerStr emotion)) with
  | some g => g.1
  | none => "unknown"

/-! ### Prediction enrichment pipeline (src/model.py, predict_with_details) -/

/-- The sentiment-reinterpretation step of predict_with_details: when
sarcasm is detected with confidence above 0.7, a positive sentiment
over a priority emotion is overridden to negative. -/
def finalSentiment (text : List Char) (sentiment emotion : String) : String :=
  let r := detect text (some sentiment) (some emotion)
  if r.is_sarcastic = true ∧ r.confidence > 0.7 then
    if sentiment = "positive" then
      if emotion ∈ SARCASM_PRIORITY_EMOTIONS then "negative"
      else sentiment
    else sentiment
  else sentiment

/-- A raw classifier output: the predicted label together with the
ordered class list and the probability row produced by the external
classifier. -/
structure ClassifierOutput where
  predicted_label : String
  class_labels : List String
  probabilities : List ℚ
  deriving DecidableEq

/-- Stable insertion of an element into a list sorted descending by
the key: the new element goes before every kept element whose key is
not larger. -/
def sortInsert (key : α → ℚ) (x : α) : List α → List α
  | [] => [x]
  | y :: ys => if key y ≤ key x then x :: y :: ys else y :: sortInsert key x ys

/-- Stable sort, descending by the key; ties keep their original
order, the behaviour of Python sorted with reverse=True. -/
def sortDescBy (key : α → ℚ) : List α → List α
  | [] => []
  | x :: xs => sortInsert key x (sortDescBy key xs)

/-- The emotion classes zipped with their probabilities and sorted by
probability, descending: the emotion_probs_sorted list of
predict_with_details. -/
def sortedEmotions (o : ClassifierOutput) : List (String × ℚ) :=
  sortDescBy (fun p => p.2) (o.class_labels.zip o.probabilities)

/-- The enriched prediction record assembled by predict_with_details.
The business-insight fields and the explanation string are omitted as
no claim concerns their content. -/
structure EnrichedPrediction where
  sentiment : String
  sentiment_confidence : ℚ
  sentiment_intensity : String
  emotion : String
  emotion_confidence : ℚ
  emotion_intensity : String
  secondary_emotion : Option String
  secondary_confidence : Option ℚ
  is_mixed_emotion : Bool
  sarcasm_detected : Bool
  sarcasm_confidence : ℚ
  deriving DecidableEq

/-- predict_with_details with the two classifier outputs supplied as
inputs: look up each predicted label in its class list (list.index
raises ValueError when absent), read its probability (IndexError when
the row is too short), compute intensities, the mixed-emotion fields
from the descending sort of the emotion row, run the sarcasm detector
on the text with the predicted sentiment and emotion, and apply the
sentiment reinterpretation.  The code performs no validation that the
predicted label carries the maximal probability. -/
def predictWithDetails (text : List Char) (sentOut emoOut : ClassifierOutput) :
    Except String EnrichedPrediction :=
  let sentiment := sentOut.predicted_label
  let emotion := emoOut.predicted_label
  match sentOut.class_labels.findIdx? (fun l => l == sentiment) with
  | none => .error "ValueError: sentiment label not in class list"
  | some sIdx =>
  match sentOut.probabilities[sIdx]? with
  | none => .error "IndexError: sentiment probability row too short"
  | some sentimentConf =>
  match emoOut.class_labels.findIdx? (fun l => l == emotion) with
  | none => .error "ValueError: emotion label not in class list"
  | some eIdx =>
  match emoOut.probabilities[eIdx]? with
  | none => .error "IndexError: emotion probability row too short"
  | some emotionConf =>
  match (sortedEmotions emoOut).head? with
  | none => .error "IndexError: no emotion classes"
  | some top =>
    let secondary := (sortedEmotions emoOut)[1]?
    let secondaryEmotion := secondary.map (fun p => p.1)
    let secondaryConf := (secondary.map (fun p => p.2)).getD 0
    let isMixed := truthy secondaryEmotion && decide (top.2 - secondaryConf < 0.15)
    let r := detect text (some sentiment) (some emotion)
    .ok
      { sentiment := finalSentiment text sentiment emotion
        sentiment_confidence := sentimentConf
        sentiment_intensity := get_intensity sentimentConf
        emotion := top.1
        emotion_confidence := emotionConf
        emotion_intensity := get_intensity emotionConf
        secondary_emotion := if isMixed then secondaryEmotion else none
        secondary_confidence := if isMixed then some secondaryConf else none
        is_mixed_emotion := isMixed
        sarcasm_detected := r.is_sarcastic
        sarcasm_confidence := r.confidence }

/-! ### Batch trend aggregator (src/batch_analysis.py)

The analyzer stores the prediction dictionaries in a pandas DataFrame.
For a non-empty prediction list every record field is a column; for
the empty list the DataFrame built from an empty list has no columns
at all, so any column access raises KeyError.  Methods that access a
column are therefore modelled with Except, failing exactly when the
prediction list is empty; methods that first test whether the column
is present return their documented default instead. -/

/-- One row of the batch: the fields of predict_with_details output
that the aggregator reads. -/
structure Pred where
  text : String
  sentiment : String
  sentiment_confidence : ℚ
  emotion : String
  emotion_confidence : ℚ
  is_mixed_emotion : Bool
  sarcasm_detected : Bool
  sarcasm_confidence : ℚ
  business_priority : String
  business_category : String
  deriving DecidableEq

/-- Distinct values of a list in order of first occurrence. -/
def dedupFirst : List String → List String
  | [] => []
  | x :: xs => x :: (dedupFirst xs).filter (fun y => y ≠ x)

/-- pandas value_counts: each observed value with its count, sorted by
count descending. -/
def valueCounts (l : List String) : List (String × ℕ) :=
  sortDescBy (fun kv => (kv.2 : ℚ))
    ((dedupFirst l).map (fun k => (k, l.count k)))

/-- A count mapping turned into percentages of the total. -/
def toPercent (total : ℕ) (counts : List (String × ℕ)) : List (String × ℚ) :=
  counts.map (fun kv => (kv.1, (kv.2 : ℚ) / (total : ℚ) * 100))

/-- BatchAnalyzer.sentiment_distribution: percentages over the
sentiment column; KeyError on an empty batch. -/
def sentimentDistribution (preds : List Pred) :
    Except String (List (String × ℚ)) :=
  if preds.isEmpty then .error "KeyError: sentiment" else
  .ok (toPercent preds.length (valueCounts (preds.map (fun p => p.sentiment))))

/-- BatchAnalyzer.emotion_distribution: percentages over the emotion
column; KeyError on an empty batch. -/
def emotionDistribution (preds : List Pred) :
    Except String (List (String × ℚ)) :=
  if preds.isEmpty then .error "KeyError: emotion" else
  .ok (toPercent preds.length (valueCounts (preds.map (fun p => p.emotion))))

/-- The largest per-value count of a list. -/
def maxCount (l : List String) : ℕ :=
  (l.map (fun x => l.count x)).foldr max 0

/-- The values of maximal count, in order of first occurrence. -/
def modesOf (l : List String) : List String :=
  (dedupFirst l).filter (fun k => l.count k == maxCount l)

/-- The least string of a list, in the lexicographic order pandas
uses to sort string values. -/
def listMinStr : List String → Option String
  | [] => none
  | x :: xs =>
    match listMinStr xs with
    | none => some x
    | some m => some (if m < x then m else x)

/-- BatchAnalyzer.dominant_emotion: the sentinel for an empty batch,
otherwise the first entry of the pandas mode of the emotion column.
pandas returns the modes sorted ascending, so the first entry is the
least mode in lexicographic string order. -/
def dominantEmotion (preds : List Pred) : String :=
  if preds.isEmpty then "unknown"
  else
    match listMinStr (modesOf (preds.map (fun p => p.emotion))) with
    | some m => m
    | none => "unknown"

/-- BatchAnalyzer.average_confidence: the means of the two confidence
columns; KeyError on an empty batch. -/
def averageConfidence (preds : List Pred) : Except String (ℚ × ℚ) :=
  if preds.isEmpty then .error "KeyError: sentiment_confidence" else
  .ok ((preds.map (fun p => p.sentiment_confidence)).sum / (preds.length : ℚ),
       (preds.map (fun p => p.emotion_confidence)).sum / (preds.length : ℚ))

/-- BatchAnalyzer.emotion_group_distribution: percentages over the
emotion groups of the emotion column; KeyError on an empty batch. -/
def emotionGroupDistribution (preds : List Pred) :
    Except String (List (String × ℚ)) :=
  if preds.isEmpty then .error "KeyError: emotion" else
  .ok (toPercent preds.length
    (valueCounts (preds.map (fun p => get_emotion_group p.emotion))))

/-- BatchAnalyzer.mixed_emotion_rate: percentage of rows with the
mixed-emotion flag; the column access raises KeyError on an empty
batch before the emptiness guard of the method is reached. -/
def mixedEmotionRate (preds : List Pred) : Except String ℚ :=
  if preds.isEmpty then .error "KeyError: is_mixed_emotion" else
  .ok (((preds.countP (fun p => p.is_mixed_emotion)) : ℚ) /
        (preds.length : ℚ) * 100)

/-- BatchAnalyzer.sarcasm_rate: the method first checks whether the
sarcasm_detected column exists and returns 0.0 when it does not, which
is exactly the empty-batch case here. -/
def sarcasmRate (preds : List Pred) : ℚ :=
  if preds.isEmpty then 0
  else ((preds.countP (fun p => p.sarcasm_detected)) : ℚ) /
        (preds.length : ℚ) * 100

/-- The projection of a row returned by sarcastic_feedback. -/
structure SarcRow where
  text : String
  emotion : String
  sentiment : String
  sarcasm_confidence : ℚ
  deriving DecidableEq

/-- BatchAnalyzer.sarcastic_feedback: the rows whose sarcasm flag is
set and whose sarcasm confidence reaches the threshold, projected to
four fields; the empty DataFrame is returned when the column is
missing, which is exactly the empty-batch case. -/
def sarcasticFeedback (threshold : ℚ) (preds : List Pred) : List SarcRow :=
  if preds.isEmpty then []
  else
    (preds.filter (fun p =>
        p.sarcasm_detected && decide (p.sarcasm_confidence ≥ threshold))).map
      (fun p => ⟨p.text, p.emotion, p.sentiment, p.sarcasm_confidence⟩)

/-- BatchAnalyzer.sarcasm_sentiment_correlation: for each of the three
sentiments, the percentage of rows of that sentiment carrying the
sarcasm flag; the empty mapping when the column is missing, which is
exactly the empty-batch case. -/
def sarcasmSentimentCorrelation (preds : List Pred) : List (String × ℚ) :=
  if preds.isEmpty then []
  else
    ["positive", "negative", "neutral"].map (fun s =>
      let rows := preds.filter (fun p => p.sentiment == s)
      if rows.isEmpty then (s, 0)
      else (s, ((rows.countP (fun p => p.sarcasm_detected)) : ℚ) /
               (rows.length : ℚ) * 100))

/-- BatchAnalyzer.priority_breakdown: counts by business priority,
computed from the prediction dictionaries directly, so no column
access and no failure on an empty batch. -/
def priorityBreakdown (preds : List Pred) : List (String × ℕ) :=
  let ps := preds.map (fun p => p.business_priority)
  (dedupFirst ps).map (fun k => (k, ps.count k))

/-- BatchAnalyzer.category_breakdown: counts by business category,
computed from the prediction dictionaries directly. -/
def categoryBreakdown (preds : List Pred) : List (String × ℕ) :=
  let cs := preds.map (fun p => p.business_category)
  (dedupFirst cs).map (fun k => (k, cs.count k))

/-- The projection of a row returned by high_risk_feedback and
positive_opportunities. -/
structure RiskRow where
  text : String
  emotion : String
  emotion_confidence : ℚ
  sentiment : String
  deriving DecidableEq

/-- BatchAnalyzer.high_risk_feedback: rows whose emotion is in the
fixed risk set with emotion confidence above the threshold; KeyError
on an empty batch. -/
def highRiskFeedback (threshold : ℚ) (preds : List Pred) :
    Except String (List RiskRow) :=
  if preds.isEmpty then .error "KeyError: emotion" else
  .ok ((preds.filter (fun p =>
      ["anger", "frustration", "disappointment", "regret"].contains p.emotion
        && decide (p.emotion_confidence > threshold))).map
    (fun p => ⟨p.text, p.emotion, p.emotion_confidence, p.sentiment⟩))

/-- BatchAnalyzer.positive_opportunities: rows whose emotion is in the
fixed opportunity set with emotion confidence above the threshold;
KeyError on an empty batch. -/
def positiveOpportunities (threshold : ℚ) (preds : List Pred) :
    Except String (List RiskRow) :=
  if preds.isEmpty then .error "KeyError: emotion" else
  .ok ((preds.filter (fun p =>
      ["joy", "satisfaction", "gratitude", "trust", "excitement"].contains
          p.emotion
        && decide (p.emotion_confidence > threshold))).map
    (fun p => ⟨p.text, p.emotion, p.emotion_confidence, p.sentiment⟩))

/-- The first key of maximal value, in iteration order: the behaviour
of Python max over dict items keyed by the value. -/
def firstMaxKey : List (String × ℚ) → Option (String × ℚ)
  | [] => none
  | kv :: rest =>
    match firstMaxKey rest with
    | none => some kv
    | some best => if kv.2 < best.2 then some best else some kv

/-- The summary mapping returned by generate_summary_report. -/
structure SummaryReport where
  total_feedback : ℕ
  dominant_sentiment : String
  sentiment_breakdown : List (String × ℚ)
  top_3_emotions : List (String × ℚ)
  emotion_group_distribution : List (String × ℚ)
  mixed_emotion_rate : ℚ
  sarcasm_rate : ℚ
  sarcasm_sentiment_correlation : List (String × ℚ)
  average_confidence : ℚ × ℚ
  high_risk_count : ℕ
  positive_opportunity_count : ℕ
  urgent_attention_needed : ℕ
  priority_breakdown : List (String × ℕ)
  category_breakdown : List (String × ℕ)
  deriving DecidableEq

/-- BatchAnalyzer.generate_summary_report, with the component methods
invoked in the order of the code; the first KeyError propagates, so on
an empty batch the report fails at sentiment_distribution. -/
def generateSummaryReport (preds : List Pred) : Except String SummaryReport := do
  let total := preds.length
  let sentimentDist ← sentimentDistribution preds
  let dominantSentiment :=
    match firstMaxKey sentimentDist with
    | some kv => kv.1
    | none => "unknown"
  let emotionDist ← emotionDistribution preds
  let top3 := (sortDescBy (fun kv => kv.2) emotionDist).take 3
  let highRisk ← highRiskFeedback 0.75 preds
  let positiveOpp ← positiveOpportunities 0.75 preds
  let avgConf ← averageConfidence preds
  let priorityCounts := priorityBreakdown preds
  let criticalCount := ((priorityCounts.find? (fun kv => kv.1 == "Critical")).map
    (fun kv => kv.2)).getD 0
  let highCount := ((priorityCounts.find? (fun kv => kv.1 == "High")).map
    (fun kv => kv.2)).getD 0
  let groupDist ← emotionGroupDistribution preds
  let mixedRate ← mixedEmotionRate preds
  .ok
    { total_feedback := total
      dominant_sentiment := dominantSentiment
      sentiment_breakdown := sentimentDist
      top_3_emotions := top3
      emotion_group_distribution := groupDist
      mixed_emotion_rate := mixedRate
      sarcasm_rate := sarcasmRate preds
      sarcasm_sentiment_correlation := sarcasmSentimentCorrelation preds
      average_confidence := avgConf
      high_risk_count := highRisk.length
      positive_opportunity_count := positiveOpp.length
      urgent_attention_needed := criticalCount + highCount
      priority_breakdown := priorityCounts
      category_breakdown := categoryBreakdown preds }

/-! ## Claims -/

/-- C1: the fusion step of SarcasmDetector.detect.  When the list of
non-zero detector scores is empty the result is not sarcastic with
confidence 0; otherwise the confidence is the mean of the scores plus
the multi-signal bonus min(0.15 * (count - 1), 0.30), capped at 0.95,
and the verdict holds exactly when the confidence exceeds 0.5. -/
theorem detect_fusion (text : List Char) (sentiment emotion : Option String) :
    (confidenceScores text sentiment emotion = [] →
      (detect text sentiment emotion).is_sarcastic = false ∧
      (detect text sentiment emotion).confidence = 0) ∧
    (confidenceScores text sentiment emotion ≠ [] →
      ((detect text sentiment emotion).confidence =
        min ((confidenceScores text sentiment emotion).sum /
              ((confidenceScores text sentiment emotion).length : ℚ) +
            min (0.15 * (((confidenceScores text sentiment emotion).length : ℚ) - 1))
              0.3)
          0.95 ∧
       ((detect text sentiment emotion).is_sarcastic = true ↔
         0.5 < (detect text sentiment emotion).confidence))) := by
  constructor
  · intro h
    unfold detect
    rw [h]
    exact ⟨rfl, rfl⟩
  · intro h
    have h2 : (confidenceScores text sentiment emotion).isEmpty = false := by
      simpa using h
    simp [detect, h2, decide_eq_true_iff]

/-- C1 witness: the fusion law evaluated on a concrete zero-signal
text and on a concrete single-signal text. -/
theorem detect_fusion_witness :
    ((detect [] none none).is_sarcastic = false ∧
      (detect [] none none).confidence = 0) ∧
    ((detect "ugh!!".toList none none).is_sarcastic = true ↔
      0.5 < (detect "ugh!!".toList none none).confidence) :=
  ⟨(detect_fusion [] none none).1 (by with_unfolding_all decide),
   ((detect_fusion "ugh!!".toList none none).2 (by with_unfolding_all decide)).2⟩

/-- C10: when the excessive-punctuation detector fires and none of the
other four signals fires, detect returns a sarcastic verdict with
confidence exactly 0.55. -/
theorem punct_only_detection (text : List Char) (sentiment emotion : Option String)
    (hphrase : phraseScore (lowerList text) = 0)
    (hcontrast : contrastScore (lowerList text) = 0)
    (hquote : quotedScore (lowerList text) = 0)
    (hmismatch : mismatchScore sentiment emotion = 0)
    (hpunct : punctScore text ≠ 0) :
    (detect text sentiment emotion).is_sarcastic = true ∧
    (detect text sentiment emotion).confidence = 0.55 := by
  have hp : punctScore text = 0.55 := by
    unfold punctScore at hpunct ⊢
    split at hpunct
    · split
      · rfl
      · simp_all
    · exact absurd rfl hpunct
  have hscores : confidenceScores text sentiment emotion = [0.55] := by
    simp only [confidenceScores]
    rw [hphrase, hcontrast, hquote, hmismatch, hp]
    norm_num
  unfold detect
  rw [hscores]
  norm_num

/-- C10 witness: a text whose only signal is the doubled exclamation
mark is flagged sarcastic at confidence 0.55. -/
theorem punct_only_detection_witness :
    (detect "ugh!!".toList none none).is_sarcastic = true ∧
    (detect "ugh!!".toList none none).confidence = 0.55 :=
  punct_only_detection "ugh!!".toList none none
    (by with_unfolding_all decide) (by with_unfolding_all decide)
    (by with_unfolding_all decide) (by with_unfolding_all decide)
    (by with_unfolding_all decide)

/-- C4: the confidence-to-intensity mapping on [0, 1]: it always
returns one of the three bands, with [0, 0.55) mapped to low,
[0.55, 0.75) to medium and [0.75, 1] to high. -/
theorem get_intensity_bands (c : ℚ) (h0 : 0 ≤ c) (_h1 : c ≤ 1) :
    (get_intensity c = "low" ∨ get_intensity c = "medium" ∨
      get_intensity c = "high") ∧
    (c < 0.55 → get_intensity c = "low") ∧
    (0.55 ≤ c → c < 0.75 → get_intensity c = "medium") ∧
    (0.75 ≤ c → get_intensity c = "high") := by
  have hval : (c < 0.55 ∧ get_intensity c = "low") ∨
      (0.55 ≤ c ∧ c < 0.75 ∧ get_intensity c = "medium") ∨
      (0.75 ≤ c ∧ get_intensity c = "high") := by
    unfold get_intensity
    split_ifs with i1 i2 i3
    · exact Or.inl ⟨i1.2, rfl⟩
    · exact Or.inr (Or.inl ⟨i2.1, i2.2, rfl⟩)
    · exact Or.inr (Or.inr ⟨i3.1, rfl⟩)
    · push_neg at i1 i2
      exact Or.inr (Or.inr ⟨i2 (i1 h0), rfl⟩)
  refine ⟨?_, ?_, ?_, ?_⟩
  · rcases hval with ⟨-, h⟩ | ⟨-, -, h⟩ | ⟨-, h⟩ <;> tauto
  · intro hl
    rcases hval with ⟨-, h⟩ | ⟨hb, -, -⟩ | ⟨hb, -⟩
    · exact h
    · linarith
    · linarith
  · intro ha hb
    rcases hval with ⟨hx, -⟩ | ⟨-, -, h⟩ | ⟨hx, -⟩
    · linarith
    · exact h
    · linarith
  · intro ha
    rcases hval with ⟨hx, -⟩ | ⟨-, hx, -⟩ | ⟨-, h⟩
    · linarith
    · linarith
    · exact h

/-- C4 witness: boundary evaluations of the intensity mapping. -/
theorem get_intensity_bands_witness :
    get_intensity 0.55 = "medium" ∧ get_intensity 0.75 = "high" ∧
    get_intensity 1 = "high" :=
  ⟨(get_intensity_bands 0.55 (by norm_num) (by norm_num)).2.2.1 (by norm_num)
      (by norm_num),
   (get_intensity_bands 0.75 (by norm_num) (by norm_num)).2.2.2 (by norm_num),
   (get_intensity_bands 1 (by norm_num) (by norm_num)).2.2.2 (by norm_num)⟩

/-- Inversion of a successful enrichment: the sentiment of the
produced record is the reinterpreted sentiment, and its mixed-emotion fields
are computed from the head and the second entry of the descending
emotion sort. -/
theorem predictWithDetails_ok_inv {text : List Char}
    {sentOut emoOut : ClassifierOutput} {r : EnrichedPrediction}
    (h : predictWithDetails text sentOut emoOut = .ok r) :
    r.sentiment =
      finalSentiment text sentOut.predicted_label emoOut.predicted_label ∧
    ∃ top, (sortedEmotions emoOut).head? = some top ∧
      r.is_mixed_emotion =
        (truthy (((sortedEmotions emoOut)[1]?).map (fun p => p.1)) &&
          decide (top.2 -
            ((((sortedEmotions emoOut)[1]?).map (fun p => p.2)).getD 0) < 0.15)) ∧
      r.secondary_emotion =
        (if (truthy (((sortedEmotions emoOut)[1]?).map (fun p => p.1)) &&
              decide (top.2 -
                ((((sortedEmotions emoOut)[1]?).map (fun p => p.2)).getD 0) < 0.15))
          then ((sortedEmotions emoOut)[1]?).map (fun p => p.1) else none) ∧
      r.secondary_confidence =
        (if (truthy (((sortedEmotions emoOut)[1]?).map (fun p => p.1)) &&
              decide (top.2 -
                ((((sortedEmotions emoOut)[1]?).map (fun p => p.2)).getD 0) < 0.15))
          then some ((((sortedEmotions emoOut)[1]?).map (fun p => p.2)).getD 0)
          else none) := by
  unfold predictWithDetails at h
  rcases hfs : sentOut.class_labels.findIdx? (fun l => l == sentOut.predicted_label)
    with - | sIdx
  · simp [hfs] at h
  · simp only [hfs] at h
    rcases hgs : sentOut.probabilities[sIdx]? with - | sConf
    · simp [hgs] at h
    · simp only [hgs] at h
      rcases hfe : emoOut.class_labels.findIdx? (fun l => l == emoOut.predicted_label)
        with - | eIdx
      · simp [hfe] at h
      · simp only [hfe] at h
        rcases hge : emoOut.probabilities[eIdx]? with - | eConf
        · simp [hge] at h
        · simp only [hge] at h
          rcases hhd : (sortedEmotions emoOut).head? with - | top
          · simp [hhd] at h
          · simp only [hhd] at h
            injection h with h'
            subst h'
            exact ⟨rfl, top, rfl, rfl, rfl, rfl⟩

/-- The sentiment-reinterpretation law of the pipeline, stated on the
reinterpretation step itself: the final sentiment differs from the
predicted one exactly when sarcasm is detected above 0.7 on a positive
prediction over a priority emotion, the changed value is always
negative, and a negative prediction is never changed. -/
theorem finalSentiment_spec (text : List Char) (st em : String) :
    (finalSentiment text st em ≠ st ↔
      ((detect text (some st) (some em)).is_sarcastic = true ∧
       (detect text (some st) (some em)).confidence > 0.7 ∧
       st = "positive" ∧ em ∈ SARCASM_PRIORITY_EMOTIONS)) ∧
    (finalSentiment text st em ≠ st → finalSentiment text st em = "negative") ∧
    (st = "negative" → finalSentiment text st em = "negative") := by
  simp only [finalSentiment]
  by_cases h1 : (detect text (some st) (some em)).is_sarcastic = true ∧
      (detect text (some st) (some em)).confidence > 0.7
  · rw [if_pos h1]
    by_cases h2 : st = "positive"
    · rw [if_pos h2]
      by_cases h3 : em ∈ SARCASM_PRIORITY_EMOTIONS
      · rw [if_pos h3]
        subst h2
        refine ⟨iff_of_true (by decide) ⟨h1.1, h1.2, rfl, h3⟩, fun _ => rfl, ?_⟩
        intro hneg
        exact absurd hneg (by decide)
      · rw [if_neg h3]
        subst h2
        refine ⟨iff_of_false (by simp) (fun hc => h3 hc.2.2.2), ?_, ?_⟩
        · intro hcon; exact absurd rfl hcon
        · intro hneg; exact absurd hneg (by decide)
    · rw [if_neg h2]
      refine ⟨iff_of_false (by simp) (fun hc => h2 hc.2.2.1), ?_, ?_⟩
      · intro hcon; exact absurd rfl hcon
      · intro hneg; exact hneg
  · rw [if_neg h1]
    refine ⟨iff_of_false (by simp) (fun hc => h1 ⟨hc.1, hc.2.1⟩), ?_, ?_⟩
    · intro hcon; exact absurd rfl hcon
    · intro hneg; exact hneg

/-- C2: for every successful enrichment, the final sentiment differs
from the predicted sentiment of the classifier exactly when sarcasm was
detected with confidence above 0.7, the predicted sentiment was
positive, and the predicted emotion is a priority emotion; a changed
sentiment is always negative, and a negative prediction never becomes
positive. -/
theorem sentiment_override (text : List Char) (sentOut emoOut : ClassifierOutput)
    (r : EnrichedPrediction) (hok : predictWithDetails text sentOut emoOut = .ok r) :
    (r.sentiment ≠ sentOut.predicted_label ↔
      ((detect text (some sentOut.predicted_label)
          (some emoOut.predicted_label)).is_sarcastic = true ∧
       (detect text (some sentOut.predicted_label)
          (some emoOut.predicted_label)).confidence > 0.7 ∧
       sentOut.predicted_label = "positive" ∧
       emoOut.predicted_label ∈ SARCASM_PRIORITY_EMOTIONS)) ∧
    (r.sentiment ≠ sentOut.predicted_label → r.sentiment = "negative") ∧
    (sentOut.predicted_label = "negative" → r.sentiment = "negative") := by
  rw [(predictWithDetails_ok_inv hok).1]
  exact finalSentiment_spec text sentOut.predicted_label emoOut.predicted_label

/-- A sentiment classifier output predicting negative with full
certainty. -/
def w2sent : ClassifierOutput := ⟨"negative", ["negative"], [1]⟩

/-- An emotion classifier output predicting anger with full
certainty. -/
def w2emo : ClassifierOutput := ⟨"anger", ["anger"], [1]⟩

/-- The enrichment record produced for the inputs of the C2 witness. -/
def w2r : EnrichedPrediction :=
  { sentiment := "negative", sentiment_confidence := 1,
    sentiment_intensity := "high", emotion := "anger",
    emotion_confidence := 1, emotion_intensity := "high",
    secondary_emotion := none, secondary_confidence := none,
    is_mixed_emotion := false, sarcasm_detected := false,
    sarcasm_confidence := 0 }

/-- C2 witness: a concrete negative prediction passes through the
pipeline with its sentiment unchanged. -/
theorem sentiment_override_witness : w2r.sentiment = "negative" :=
  (sentiment_override "ugh".toList w2sent w2emo w2r
      (by with_unfolding_all rfl)).2.2 rfl

/-- A sentiment classifier output predicting neutral with full
certainty. -/
def c3sent : ClassifierOutput := ⟨"neutral", ["neutral"], [1]⟩

/-- An emotion classifier output whose second class label is the empty
string, tied with the predicted label. -/
def c3emo : ClassifierOutput := ⟨"joy", ["joy", ""], [1/2, 1/2]⟩

/-- C3 counterexample: with an empty-string second class label at
probability gap 0 the code leaves is_mixed_emotion false and both
secondary fields null, although a second emotion class exists and the
top-two probability gap is below 0.15: Python truthiness of the label
string, not mere existence, gates the mixed-emotion flag. -/
theorem mixed_emotion_cex :
    (predictWithDetails [] c3sent c3emo).map
        (fun r => (r.is_mixed_emotion, r.secondary_emotion, r.secondary_confidence)) =
      .ok (false, none, none) ∧
    (sortedEmotions c3emo)[0]? = some ("joy", 1/2) ∧
    (sortedEmotions c3emo)[1]? = some ("", 1/2) ∧
    ((1 : ℚ)/2 - 1/2 < 0.15) :=
  ⟨by with_unfolding_all rfl, by with_unfolding_all rfl,
   by with_unfolding_all rfl, by norm_num⟩

/-- C3 amended: for every successful enrichment, is_mixed_emotion
holds exactly when both secondary fields are non-null, and exactly
when a second emotion class with a non-empty label exists whose
probability is within 0.15 of the top probability. -/
theorem mixed_emotion_invariant (text : List Char)
    (sentOut emoOut : ClassifierOutput) (r : EnrichedPrediction)
    (hok : predictWithDetails text sentOut emoOut = .ok r) :
    (r.is_mixed_emotion = true ↔
      (r.secondary_emotion ≠ none ∧ r.secondary_confidence ≠ none)) ∧
    (r.is_mixed_emotion = true ↔
      (∃ top second, (sortedEmotions emoOut)[0]? = some top ∧
        (sortedEmotions emoOut)[1]? = some second ∧
        second.1 ≠ "" ∧ top.2 - second.2 < (0.15 : ℚ))) := by
  obtain ⟨-, top, htop, hmix, hse, hsc⟩ := predictWithDetails_ok_inv hok
  obtain ⟨tail, hl⟩ : ∃ tail, sortedEmotions emoOut = top :: tail := by
    cases hs : sortedEmotions emoOut with
    | nil => rw [hs] at htop; simp at htop
    | cons x xs =>
      rw [hs] at htop
      simp at htop
      subst htop
      exact ⟨xs, rfl⟩
  rw [hl] at hmix hse hsc ⊢
  rcases tail with - | ⟨b, tail2⟩
  · simp [truthy] at hmix hse hsc
    constructor
    · rw [hmix, hse, hsc]
      simp
    · rw [hmix]
      simp
  · have hone : ((top :: b :: tail2 : List (String × ℚ)))[1]? = some b := by simp
    rw [hone] at hmix hse hsc
    simp only [Option.map_some', Option.getD_some] at hmix hse hsc
    by_cases hcond : b.1 ≠ "" ∧ top.2 - b.2 < 0.15
    · have hbool : (truthy (some b.1) && decide (top.2 - b.2 < 0.15)) = true := by
        simp [truthy, hcond.1, hcond.2]
      rw [hbool] at hmix hse hsc
      rw [if_pos rfl] at hse hsc
      constructor
      · rw [hmix, hse, hsc]
        simp
      · rw [hmix]
        exact iff_of_true rfl ⟨top, b, by simp, by simp, hcond.1, hcond.2⟩
    · have hbool : (truthy (some b.1) && decide (top.2 - b.2 < 0.15)) = false := by
        rcases not_and_or.mp hcond with h1 | h2
        · simp [truthy, not_not.mp h1]
        · simp [truthy, h2]
      rw [hbool] at hmix hse hsc
      rw [if_neg (by simp)] at hse hsc
      constructor
      · rw [hmix, hse, hsc]
        simp
      · rw [hmix]
        refine iff_of_false (by simp) ?_
        rintro ⟨t, s2, ht, hs2, hs1ne, hlt⟩
        have hteq : top = t := by simpa using ht
        have hseq : b = s2 := by simpa using hs2
        subst hteq
        subst hseq
        exact hcond ⟨hs1ne, hlt⟩

/-- A sentiment classifier output predicting positive with full
certainty. -/
def c3wsent : ClassifierOutput := ⟨"positive", ["positive"], [1]⟩

/-- An emotion classifier output with a close second emotion: joy at
0.52 and gratitude at 0.48. -/
def c3wemo : ClassifierOutput := ⟨"joy", ["joy", "gratitude"], [13/25, 12/25]⟩

/-- The enrichment record produced for the inputs of the C3 witness. -/
def c3wr : EnrichedPrediction :=
  { sentiment := "positive", sentiment_confidence := 1,
    sentiment_intensity := "high", emotion := "joy",
    emotion_confidence := 13/25, emotion_intensity := "low",
    secondary_emotion := some "gratitude",
    secondary_confidence := some (12/25), is_mixed_emotion := true,
    sarcasm_detected := false, sarcasm_confidence := 0 }

/-- C3 witness: a concrete mixed-emotion enrichment carries both
secondary fields. -/
theorem mixed_emotion_invariant_witness :
    c3wr.secondary_emotion ≠ none ∧ c3wr.secondary_confidence ≠ none :=
  (mixed_emotion_invariant [] c3wsent c3wemo c3wr
      (by with_unfolding_all rfl)).1.mp rfl

/-- The largest probability of a list, the value of Python max. -/
def listMaxQ : List ℚ → Option ℚ
  | [] => none
  | x :: xs =>
    match listMaxQ xs with
    | none => some x
    | some m => some (max x m)

/-- The probability recorded for the predicted label: the entry of the
probability row at the index of the predicted label in the class
list. -/
def predictedProbability (o : ClassifierOutput) : Option ℚ :=
  (o.class_labels.findIdx? (fun l => l == o.predicted_label)).bind
    (fun i => o.probabilities[i]?)

/-- A well-formed sentiment output predicting neutral. -/
def c5sent : ClassifierOutput :=
  ⟨"neutral", ["negative", "neutral", "positive"], [1/5, 3/5, 1/5]⟩

/-- An emotion output violating the argmax invariant: the predicted
label joy carries probability 0.3 while anger carries 0.7. -/
def c5emo : ClassifierOutput := ⟨"joy", ["joy", "anger"], [3/10, 7/10]⟩

/-- C5 counterexample: an output whose predicted label does not carry
the maximal probability is not rejected: the enrichment succeeds. -/
theorem no_argmax_rejection_cex :
    predictedProbability c5emo = some (3/10) ∧
    listMaxQ c5emo.probabilities = some (7/10) ∧
    (3/10 : ℚ) ≠ 7/10 ∧
    (predictWithDetails [] c5sent c5emo).toOption.isSome = true :=
  ⟨by with_unfolding_all rfl, by with_unfolding_all rfl, by norm_num,
   by with_unfolding_all rfl⟩

/-- Inserting into a list never yields the empty list. -/
theorem sortInsert_ne_nil (key : α → ℚ) (x : α) (l : List α) :
    sortInsert key x l ≠ [] := by
  cases l with
  | nil => simp [sortInsert]
  | cons y ys =>
    simp only [sortInsert]
    split <;> simp

/-- The stable descending sort is empty exactly on the empty list. -/
theorem sortDescBy_eq_nil_iff (key : α → ℚ) (l : List α) :
    sortDescBy key l = [] ↔ l = [] := by
  cases l with
  | nil => simp [sortDescBy]
  | cons x xs => simp [sortDescBy, sortInsert_ne_nil]

/-- C5 amended: the enrichment performs no argmax validation at all:
whenever both predicted labels resolve to a probability entry, it
produces an enriched prediction, maximal or not; it fails only when a
label lookup or probability access fails. -/
theorem enrich_no_validation (text : List Char) (sentOut emoOut : ClassifierOutput)
    (hs : ∃ p, predictedProbability sentOut = some p)
    (he : ∃ p, predictedProbability emoOut = some p) :
    (predictWithDetails text sentOut emoOut).toOption.isSome = true := by
  obtain ⟨sp, hsp⟩ := hs
  obtain ⟨ep, hep⟩ := he
  unfold predictedProbability at hsp hep
  rcases Option.bind_eq_some.mp hsp with ⟨si, hfs, hps⟩
  rcases Option.bind_eq_some.mp hep with ⟨ei, hfe, hpe⟩
  have hzip : emoOut.class_labels.zip emoOut.probabilities ≠ [] := by
    cases hc : emoOut.class_labels with
    | nil => rw [hc] at hfe; simp at hfe
    | cons c cs =>
      cases hp : emoOut.probabilities with
      | nil => rw [hp] at hpe; simp at hpe
      | cons q qs => simp [hc, hp]
  have hsortne : sortedEmotions emoOut ≠ [] := by
    rw [sortedEmotions]
    intro hcon
    exact hzip ((sortDescBy_eq_nil_iff _ _).mp hcon)
  rcases hhd : (sortedEmotions emoOut).head? with - | top
  · rw [List.head?_eq_none_iff] at hhd
    exact absurd hhd hsortne
  · unfold predictWithDetails
    simp only [hfs, hps, hfe, hpe, hhd]
    rfl

/-- C5 amended witness: the violating output of the counterexample
satisfies the lookup hypotheses, so the enrichment succeeds on it. -/
theorem enrich_no_validation_witness :
    (predictWithDetails [] c5sent c5emo).toOption.isSome = true :=
  enrich_no_validation [] c5sent c5emo ⟨3/5, by with_unfolding_all rfl⟩
    ⟨3/10, by with_unfolding_all rfl⟩

/-- C6: behaviour of the batch aggregator on the empty prediction
list.  pandas builds a DataFrame with no columns from an empty list,
so the distribution and rate methods that access a column raise
KeyError, and generate_summary_report fails with them; only
dominant_emotion, sarcasm_rate, sarcastic_feedback and
sarcasm_sentiment_correlation, which guard first, return their
documented defaults. -/
theorem empty_batch_eval :
    sentimentDistribution [] = .error "KeyError: sentiment" ∧
    emotionDistribution [] = .error "KeyError: emotion" ∧
    mixedEmotionRate [] = .error "KeyError: is_mixed_emotion" ∧
    emotionGroupDistribution [] = .error "KeyError: emotion" ∧
    averageConfidence [] = .error "KeyError: sentiment_confidence" ∧
    generateSummaryReport [] = .error "KeyError: sentiment" ∧
    dominantEmotion [] = "unknown" ∧
    sarcasmRate [] = 0 ∧
    sarcasticFeedback (1/2) [] = [] ∧
    sarcasmSentimentCorrelation [] = [] :=
  ⟨rfl, rfl, rfl, rfl, rfl, rfl, rfl, rfl, rfl, rfl⟩

/-- The text of spec scenario 1, with its apostrophe. -/
def c7text : List Char :=
  "Great job! You".toList ++ [apos] ++
    "ve managed to mess up my order three times in a row.".toList

/-- A sentiment classifier output predicting positive for the scenario
text. -/
def c7sent : ClassifierOutput :=
  ⟨"positive", ["negative", "neutral", "positive"], [1/10, 1/10, 8/10]⟩

/-- An emotion classifier output predicting anger for the scenario
text. -/
def c7emo : ClassifierOutput := ⟨"anger", ["anger", "neutral"], [9/10, 1/10]⟩

/-- C7 counterexample: on the scenario text the contrast detector does
not fire (the text contains a positive surface word but no negative
context word and no intensified positive), even though sarcasm is
detected overall. -/
theorem scenario1_contrast_cex :
    contrastScore (lowerList c7text) = 0 ∧
    (detect c7text (some "positive") (some "anger")).is_sarcastic = true :=
  ⟨by with_unfolding_all decide, by with_unfolding_all decide⟩

/-- C7 amended: on the scenario text the phrase detector (0.75) and
the polarity-mismatch detector (0.6) fire, the contrast detector does
not, the fused confidence is 0.825 which exceeds 0.7, and the
enrichment overrides the final sentiment to negative. -/
theorem scenario1_amended :
    phraseScore (lowerList c7text) = 0.75 ∧
    mismatchScore (some "positive") (some "anger") = 0.6 ∧
    confidenceScores c7text (some "positive") (some "anger") = [0.75, 0.6] ∧
    detect c7text (some "positive") (some "anger") = ⟨true, 0.825⟩ ∧
    ((0.7 : ℚ) < 0.825) ∧
    finalSentiment c7text "positive" "anger" = "negative" ∧
    (predictWithDetails c7text c7sent c7emo).map (fun r => r.sentiment) =
      .ok "negative" :=
  ⟨by with_unfolding_all decide, by with_unfolding_all decide,
   by with_unfolding_all decide, by with_unfolding_all decide,
   by norm_num, by with_unfolding_all decide, by with_unfolding_all rfl⟩

/-- Deduplication preserves membership. -/
theorem mem_dedupFirst {x : String} : ∀ {l : List String},
    x ∈ dedupFirst l ↔ x ∈ l := by
  intro l
  induction l with
  | nil => simp [dedupFirst]
  | cons a t ih =>
    simp only [dedupFirst, List.mem_cons, List.mem_filter]
    constructor
    · rintro (rfl | ⟨hx, -⟩)
      · exact Or.inl rfl
      · exact Or.inr (ih.mp hx)
    · rintro (rfl | hx)
      · exact Or.inl rfl
      · by_cases hxa : x = a
        · exact Or.inl hxa
        · exact Or.inr ⟨ih.mpr hx, by simpa using hxa⟩

/-- A member of a list of naturals is bounded by the fold of max. -/
theorem le_foldr_max {n : ℕ} : ∀ {m : List ℕ}, n ∈ m → n ≤ m.foldr max 0 := by
  intro m
  induction m with
  | nil => simp
  | cons a t ih =>
    intro h
    rcases List.mem_cons.mp h with rfl | h
    · exact le_max_left _ _
    · exact le_trans (ih h) (le_max_right _ _)

/-- Every per-value count is bounded by the maximal count. -/
theorem count_le_maxCount {l : List String} {x : String} (hx : x ∈ l) :
    l.count x ≤ maxCount l :=
  le_foldr_max (List.mem_map_of_mem (fun y => l.count y) hx)

/-- The fold of max over naturals is an element or zero. -/
theorem foldr_max_mem (m : List ℕ) : m.foldr max 0 ∈ m ∨ m.foldr max 0 = 0 := by
  induction m with
  | nil => right; rfl
  | cons a t ih =>
    rcases max_choice a (t.foldr max 0) with h | h
    · left
      simp only [List.foldr_cons, h]
      exact List.mem_cons_self a t
    · rcases ih with h2 | h2
      · left
        simp only [List.foldr_cons, h]
        exact List.mem_cons_of_mem a h2
      · right
        rw [List.foldr_cons, h, h2]

/-- On a non-empty list the maximal count is attained. -/
theorem maxCount_attained {l : List String} (hl : l ≠ []) :
    ∃ x, x ∈ l ∧ l.count x = maxCount l := by
  unfold maxCount
  rcases foldr_max_mem (l.map fun y => l.count y) with h | h
  · rcases List.mem_map.mp h with ⟨x, hx, hcx⟩
    exact ⟨x, hx, hcx⟩
  · rcases l with - | ⟨a, t⟩
    · exact absurd rfl hl
    · exfalso
      have h1 : 0 < (a :: t).count a := by
        simp [List.count_cons_self]
      have h2 : (a :: t).count a ≤
          ((a :: t).map fun y => (a :: t).count y).foldr max 0 :=
        le_foldr_max (List.mem_map_of_mem _ (List.mem_cons_self a t))
      omega

/-- On a non-empty list the mode set is non-empty. -/
theorem modesOf_ne_nil {l : List String} (hl : l ≠ []) : modesOf l ≠ [] := by
  obtain ⟨x, hx, hcx⟩ := maxCount_attained hl
  have hmem : x ∈ modesOf l := by
    unfold modesOf
    rw [List.mem_filter]
    exact ⟨mem_dedupFirst.mpr hx, by simp [hcx]⟩
  intro hcon
  rw [hcon] at hmem
  simp at hmem

/-- The least string is absent exactly on the empty list. -/
theorem listMinStr_eq_none : ∀ {l : List String},
    listMinStr l = none ↔ l = [] := by
  intro l
  cases l with
  | nil => simp [listMinStr]
  | cons x xs =>
    simp only [listMinStr]
    rcases h : listMinStr xs with - | m <;> simp

/-- A non-empty list has a least string. -/
theorem listMinStr_isSome {l : List String} (hl : l ≠ []) :
    ∃ m, listMinStr l = some m := by
  rcases h : listMinStr l with - | m
  · exact absurd (listMinStr_eq_none.mp h) hl
  · exact ⟨m, rfl⟩

/-- The least string belongs to the list. -/
theorem listMinStr_mem : ∀ {l : List String} {m : String},
    listMinStr l = some m → m ∈ l := by
  intro l
  induction l with
  | nil => intro m h; simp [listMinStr] at h
  | cons x xs ih =>
    intro m h
    rcases hxs : listMinStr xs with - | m2
    · simp only [listMinStr, hxs] at h
      injection h with h
      subst h
      exact List.mem_cons_self x xs
    · simp only [listMinStr, hxs] at h
      injection h with h
      subst h
      split
      · exact List.mem_cons_of_mem x (ih hxs)
      · exact List.mem_cons_self x xs

/-- The least string is a lower bound of the list. -/
theorem listMinStr_le : ∀ {l : List String} {m : String},
    listMinStr l = some m → ∀ x ∈ l, m ≤ x := by
  intro l
  induction l with
  | nil => intro m hm; simp [listMinStr] at hm
  | cons a t ih =>
    intro m hm x hx
    rcases ht : listMinStr t with - | mt
    · simp only [listMinStr, ht] at hm
      injection hm with hm
      subst hm
      rcases List.mem_cons.mp hx with rfl | hxt
      · exact le_refl x
      · rw [listMinStr_eq_none.mp ht] at hxt
        simp at hxt
    · simp only [listMinStr, ht] at hm
      injection hm with hm
      subst hm
      rcases List.mem_cons.mp hx with rfl | hxt
      · split
        · next hlt => exact le_of_lt hlt
        · exact le_refl x
      · split
        · exact ih ht x hxt
        · next hnlt => exact le_trans (not_lt.mp hnlt) (ih ht x hxt)

/-- C8 amended: on a non-empty batch, dominant_emotion returns an
observed emotion of maximal count, and among the labels of maximal
count it returns the lexicographically least one (the tie-break of the
pandas mode, which sorts the modes ascending), not the first
encountered. -/
theorem dominant_emotion_spec (preds : List Pred) (h : preds ≠ []) :
    dominantEmotion preds ∈ preds.map (fun p => p.emotion) ∧
    (∀ e ∈ preds.map (fun p => p.emotion),
      (preds.map (fun p => p.emotion)).count e ≤
        (preds.map (fun p => p.emotion)).count (dominantEmotion preds)) ∧
    (∀ e ∈ preds.map (fun p => p.emotion),
      (preds.map (fun p => p.emotion)).count e =
        (preds.map (fun p => p.emotion)).count (dominantEmotion preds) →
      dominantEmotion preds ≤ e) := by
  have hne : preds.isEmpty = false := by
    simpa [List.isEmpty_iff] using h
  have hlne : preds.map (fun p => p.emotion) ≠ [] := by
    simpa using h
  obtain ⟨m, hm⟩ := listMinStr_isSome (modesOf_ne_nil hlne)
  have hdom : dominantEmotion preds = m := by
    simp [dominantEmotion, hne, hm]
  have hmem := listMinStr_mem hm
  rw [modesOf, List.mem_filter] at hmem
  obtain ⟨hmd, hmc⟩ := hmem
  have hmcount : (preds.map (fun p => p.emotion)).count m =
      maxCount (preds.map (fun p => p.emotion)) := by
    simpa using hmc
  rw [hdom]
  refine ⟨mem_dedupFirst.mp hmd, ?_, ?_⟩
  · intro e he
    rw [hmcount]
    exact count_le_maxCount he
  · intro e he hce
    have he2 : e ∈ modesOf (preds.map (fun p => p.emotion)) := by
      rw [modesOf, List.mem_filter]
      refine ⟨mem_dedupFirst.mpr he, ?_⟩
      simp [hce, hmcount]
    exact listMinStr_le hm e he2

/-- A record with neutral default field values, used to build batch
rows. -/
def basePred : Pred :=
  { text := "t", sentiment := "neutral", sentiment_confidence := 1/2,
    emotion := "neutral", emotion_confidence := 1/2,
    is_mixed_emotion := false, sarcasm_detected := false,
    sarcasm_confidence := 0, business_priority := "Low",
    business_category := "Routine Engagement" }

/-- A row whose emotion is joy. -/
def p8joy : Pred := { basePred with emotion := "joy" }

/-- A row whose emotion is anger. -/
def p8anger : Pred := { basePred with emotion := "anger" }

/-- C8 counterexample: joy is encountered first and ties with anger at
count one, yet dominant_emotion returns anger, the lexicographically
least label, because the pandas mode is sorted ascending: the
first-encountered tie-break of the claim does not hold. -/
theorem dominant_emotion_cex :
    ([p8joy, p8anger].map (fun p => p.emotion)) = ["joy", "anger"] ∧
    (["joy", "anger"] : List String).count "joy" =
      (["joy", "anger"] : List String).count "anger" ∧
    dominantEmotion [p8joy, p8anger] = "anger" :=
  ⟨rfl, rfl, by with_unfolding_all decide⟩

/-- C8 amended witness: the dominant emotion of a concrete two-row
batch is one of its observed emotions. -/
theorem dominant_emotion_spec_witness :
    dominantEmotion [p8joy, p8anger] ∈
      ([p8joy, p8anger].map (fun p => p.emotion)) :=
  (dominant_emotion_spec [p8joy, p8anger] (by simp)).1

/-- Filtering with a stronger predicate never yields more elements. -/
theorem filter_length_mono {α : Type} (p q : α → Bool)
    (h : ∀ a, p a = true → q a = true) :
    ∀ l : List α, (l.filter p).length ≤ (l.filter q).length := by
  intro l
  induction l with
  | nil => simp
  | cons a t ih =>
    simp only [List.filter_cons]
    by_cases hpa : p a = true
    · rw [if_pos hpa, if_pos (h a hpa)]
      simpa using ih
    · rw [if_neg hpa]
      split
      · simp only [List.length_cons]
        exact Nat.le_succ_of_le ih
      · exact ih

/-- C9: every row returned by sarcastic_feedback has the sarcasm flag
set and sarcasm confidence at least the threshold, and raising the
threshold never increases the number of returned rows. -/
theorem sarcastic_feedback_spec (preds : List Pred) (t t1 t2 : ℚ) :
    (∀ q ∈ sarcasticFeedback t preds,
      t ≤ q.sarcasm_confidence ∧
      ∃ p ∈ preds, p.sarcasm_detected = true ∧
        q = ⟨p.text, p.emotion, p.sentiment, p.sarcasm_confidence⟩) ∧
    (t1 ≤ t2 →
      (sarcasticFeedback t2 preds).length ≤ (sarcasticFeedback t1 preds).length) := by
  constructor
  · intro q hq
    unfold sarcasticFeedback at hq
    by_cases hne : preds.isEmpty
    · rw [if_pos hne] at hq
      simp at hq
    · rw [if_neg hne] at hq
      rcases List.mem_map.mp hq with ⟨p, hpmem, hpq⟩
      rcases List.mem_filter.mp hpmem with ⟨hpin, hcond⟩
      have hc2 : p.sarcasm_detected = true ∧ t ≤ p.sarcasm_confidence := by
        simpa using hcond
      subst hpq
      exact ⟨hc2.2, p, hpin, hc2.1, rfl⟩
  · intro hle
    unfold sarcasticFeedback
    by_cases hne : preds.isEmpty
    · rw [if_pos hne, if_pos hne]
    · rw [if_neg hne, if_neg hne]
      rw [List.length_map, List.length_map]
      refine filter_length_mono _ _ ?_ preds
      intro p hp
      have hc : p.sarcasm_detected = true ∧ t2 ≤ p.sarcasm_confidence := by
        simpa using hp
      simp [hc.1, le_trans hle hc.2]

/-- A sarcastic row at confidence 0.8. -/
def p9 : Pred :=
  { basePred with
      emotion := "anger"
      sentiment := "positive"
      sarcasm_detected := true
      sarcasm_confidence := 4/5 }

/-- C9 witness: on a concrete one-row batch the returned row meets the
threshold, and the 0.75-threshold selection is no larger than the
0.5-threshold selection. -/
theorem sarcastic_feedback_spec_witness :
    ((1 : ℚ)/2 ≤ (⟨"t", "anger", "positive", (4 : ℚ)/5⟩ : SarcRow).sarcasm_confidence) ∧
    (sarcasticFeedback (3/4) [p9]).length ≤ (sarcasticFeedback (1/2) [p9]).length :=
  ⟨((sarcastic_feedback_spec [p9] (1/2) (1/2) (3/4)).1
      ⟨"t", "anger", "positive", 4/5⟩ (by with_unfolding_all decide)).1,
   (sarcastic_feedback_spec [p9] (1/2) (1/2) (3/4)).2 (by norm_num)⟩

end EmotionAnalyzer
